import Mathlib

/-!
Shallow embedding of the VDELIVERY delivery-request page logic
(`src/style.js`) and proofs of the specification claims about it.

Conventions of the embedding:
* JavaScript numbers are modelled as exact rationals (`ℚ`) where the code
  only does field-store/compare arithmetic, and as reals (`ℝ`) where the
  code calls transcendental functions (the haversine distance).
* `Math.round x` is `⌊x + 1/2⌋` (round half towards +∞), matching the
  ECMAScript definition.
* DOM fields holding coordinate strings are modelled by the parsed values
  they denote: a hidden coords field either holds `'Not set'` (modelled
  `none`) or a `"lat, lng"` rendering of two finite decimals (modelled
  `some (lat, lng)` with the exact rational values).
-/

namespace VDelivery

/-- JavaScript `Math.round` on exact rationals: round half towards +∞. -/
def jsRound (x : ℚ) : ℤ := ⌊x + 1/2⌋

/-- JavaScript `Math.round` on reals (used where the code mixes the
result of the transcendental haversine computation into pricing). -/
noncomputable def jsRoundR (x : ℝ) : ℤ := ⌊x + 1/2⌋

/-- JavaScript `Number.prototype.toFixed(6)` as a value: the rational denoted by the
6-fraction-digit decimal rendering of `x` (ties go to the larger value,
per the ECMAScript `toFixed` algorithm). -/
def toFixed6 (x : ℚ) : ℚ := (jsRound (x * 1000000) : ℚ) / 1000000

/-- Flat base fee in UGX (`const BASE_FEE = 3000`, src/style.js line 11). -/
def BASE_FEE : ℚ := 3000

/-- Per-km motorcycle rate (`const RATE_MOTORCYCLE = 1500`, line 12). -/
def RATE_MOTORCYCLE : ℚ := 1500

/-- Per-km car rate (`const RATE_CAR = 4000`, line 13). -/
def RATE_CAR : ℚ := 4000

/-- The two vehicle classes the page's `vehicleType` select distinguishes:
`vehicleType === 'motorcycle'` selects the motorcycle rate/profile and any
other selected value the car rate/profile. -/
inductive VehicleClass
  | motorcycle
  | car
  deriving DecidableEq, Repr

/-- Rate selection `vehicleType === 'motorcycle' ? RATE_MOTORCYCLE : RATE_CAR`
(src/style.js lines 388 and 408). -/
def rateOf : VehicleClass → ℚ
  | .motorcycle => RATE_MOTORCYCLE
  | .car => RATE_CAR

/-! ## Geo-boundary validator

`UGANDA_BOUNDS = L.latLngBounds([ -1.5, 29.5 ], [ 4.9, 35.1 ])`
(src/style.js line 8): south = -1.5, west = 29.5, north = 4.9,
east = 35.1. -/

/-- The fixed bounding region of src/style.js line 8. -/
structure BoundingRegion where
  south : ℚ
  west : ℚ
  north : ℚ
  east : ℚ
  deriving DecidableEq, Repr

/-- Constant `UGANDA_BOUNDS` (src/style.js line 8). -/
def UGANDA_BOUNDS : BoundingRegion :=
  { south := -3/2, west := 59/2, north := 49/10, east := 351/10 }

/-- A JavaScript float coordinate: `none` models `NaN`, `some q` a finite
value. -/
abbrev JSNum : Type := Option ℚ

/-- Comparison `x <= y` on JavaScript numbers: any comparison with `NaN` is false. -/
def numLe (x y : JSNum) : Bool :=
  match x, y with
  | some a, some b => a ≤ b
  | _, _ => false

/-- Modelled from the spec: the Geo-Boundary Validator
`contains(point, region)` (spec §4.1). The implementation is
`L.latLngBounds(...).contains` of the external Leaflet library, which is
not part of src/; the spec fixes it as the pure predicate
`region.south <= lat <= region.north AND region.west <= lng <= region.east`,
returning `false` (never throwing) on `NaN` input. -/
def contains (lat lng : JSNum) (region : BoundingRegion) : Bool :=
  numLe (some region.south) lat && numLe lat (some region.north) &&
    numLe (some region.west) lng && numLe lng (some region.east)

/-- The in-bounds check on finite coordinates, as every internal caller in
src/style.js performs it (`UGANDA_BOUNDS.contains(latlng)`). -/
def containsB (lat lng : ℚ) : Bool :=
  contains (some lat) (some lng) UGANDA_BOUNDS

/-! ## Location state store and DOM-backed page state -/

/-- The logical slot a selected point is attached to (`type` being
`'pickup'` or `'delivery'` throughout src/style.js). -/
inductive Role
  | pickup
  | delivery
  deriving DecidableEq, Repr

/-- Geometry drawn on the maps as `routeLayer`: either the provider's
GeoJSON path (`L.geoJSON(data, ...)`, line 369, identified by an opaque
payload id) or the straight dashed fallback line between the two stored
points (`L.polyline(...)`, line 418). -/
inductive RouteGeom
  | providerPath (payloadId : ℕ)
  | straightLine (p q : ℚ × ℚ)
  deriving DecidableEq, Repr

/-- The page state touched by the location/route logic of src/style.js:
the two stored locations (hidden coords fields, `none` = `'Not set'`),
the two marker positions, the selected vehicle, the `routeLayer` overlay,
the displayed route info triple (distance km, duration min, cost;
`none` = the `'--'` placeholders), the visibility of `#routeSection`, and
the notifications/map-feedback messages shown so far. -/
structure PageState where
  pickup : Option (ℚ × ℚ)
  delivery : Option (ℚ × ℚ)
  pickupMarker : ℚ × ℚ
  deliveryMarker : ℚ × ℚ
  vehicleField : Option VehicleClass
  routeLayer : Option RouteGeom
  routeInfo : Option (ℝ × ℤ × ℤ)
  routeSectionVisible : Bool
  notes : List String

/-- Kampala default center `[0.3476, 32.5825]` (src/style.js line 20). -/
def kampala : ℚ × ℚ := (3476/10000, 325825/10000)

/-- Helpers `showNotification` / `showMapFeedback`: append a visible message. -/
def addNote (s : PageState) (msg : String) : PageState :=
  { s with notes := s.notes ++ [msg] }

/-- The boolean condition of `checkRouteAvailability` (src/style.js
lines 304-318): both hidden coords fields set and not `'Not set'`, and
both parsed points inside `UGANDA_BOUNDS`. -/
def checkRouteAvailabilityB (s : PageState) : Bool :=
  match s.pickup, s.delivery with
  | some p, some d => containsB p.1 p.2 && containsB d.1 d.2
  | _, _ => false

/-- Function `checkRouteAvailability` as a state update: shows `#routeSection`
exactly when `checkRouteAvailabilityB` holds, else hides it. -/
def checkRouteAvailability (s : PageState) : PageState :=
  { s with routeSectionVisible := checkRouteAvailabilityB s }

/-- Function `updateLocation(latlng, type)` (src/style.js lines 226-279): moves the
role's marker to the selected point, stores `lat.toFixed(6)` /
`lng.toFixed(6)` into the role's fields, and re-runs
`checkRouteAvailability`. (The asynchronous reverse-geocode address
auto-fill touches only the optional address text field.) -/
def updateLocation (s : PageState) (lat lng : ℚ) (role : Role) : PageState :=
  let stored := (toFixed6 lat, toFixed6 lng)
  let s1 :=
    match role with
    | .pickup => { s with pickupMarker := (lat, lng), pickup := some stored }
    | .delivery => { s with deliveryMarker := (lat, lng), delivery := some stored }
  checkRouteAvailability s1

/-- Handler `onMapClick(e, type)` (src/style.js lines 196-204): out-of-bounds
clicks are notified and blocked; in-bounds clicks update the location and
show map feedback. -/
def onMapClick (s : PageState) (lat lng : ℚ) (role : Role) : PageState :=
  if containsB lat lng then
    addNote (updateLocation s lat lng role) "location set"
  else
    addNote s "Location outside Uganda - pick a point inside Uganda."

/-- Handler `onMarkerDragEnd(e, type)` (src/style.js lines 206-223): an
out-of-bounds drag is notified and the marker snaps back to the stored
coords (or Kampala when none are stored) without touching the stored
fields; an in-bounds drag updates the location. -/
def onMarkerDragEnd (s : PageState) (lat lng : ℚ) (role : Role) : PageState :=
  if containsB lat lng then
    addNote (updateLocation s lat lng role) "location updated"
  else
    let s1 := addNote s "Marker outside Uganda - resetting to last valid position."
    match role with
    | .pickup =>
      { s1 with pickupMarker := s1.pickup.getD kampala }
    | .delivery =>
      { s1 with deliveryMarker := s1.delivery.getD kampala }

/-- The `markgeocode` search handler (src/style.js lines 66-74 and
137-145): an out-of-bounds search result is notified and dropped; an
in-bounds one recenters the map and updates the location. -/
def onGeocodeResult (s : PageState) (lat lng : ℚ) (role : Role) : PageState :=
  if containsB lat lng then
    updateLocation s lat lng role
  else
    addNote s "Search result is outside Uganda - please pick a location inside Uganda."

/-- The geolocation success callback of `getCurrentLocation` (src/style.js
lines 480-498): an out-of-bounds device position is notified and dropped;
an in-bounds one updates the location. -/
def onGeolocationSuccess (s : PageState) (lat lng : ℚ) (role : Role) : PageState :=
  if containsB lat lng then
    addNote (updateLocation s lat lng role) "Location found successfully!"
  else
    addNote s "Your current location is outside Uganda. Please set a location inside Uganda."

/-- The stored Location State Store entries of a page state: what the two
hidden coords fields hold. -/
def locStore (s : PageState) : Option (ℚ × ℚ) × Option (ℚ × ℚ) :=
  (s.pickup, s.delivery)

/-- Function `clearLocation(mapType)` (src/style.js lines 777-803): resets the
role's marker to Kampala, empties the role's fields (coords back to
`'Not set'`), shows map feedback, and re-runs `checkRouteAvailability`.
It does not touch `routeLayer` or the route info display. -/
def clearLocation (s : PageState) (role : Role) : PageState :=
  let s1 :=
    match role with
    | .pickup => { s with pickupMarker := kampala, pickup := none }
    | .delivery => { s with deliveryMarker := kampala, delivery := none }
  checkRouteAvailability (addNote s1 "Location cleared")

/-- Function `clearRoute()` (src/style.js lines 450-462): removes the overlay and
resets the route info display to the `'--'` placeholders. -/
def clearRoute (s : PageState) : PageState :=
  addNote { s with routeLayer := none, routeInfo := none } "Route cleared"

/-- The `change` handler on the `#vehicleType` select (the user picking a
vehicle stores the selection the route code later reads). -/
def setVehicle (s : PageState) (v : VehicleClass) : PageState :=
  { s with vehicleField := some v }

/-! ## Geodesic distance (haversine) -/

/-- JavaScript `Math.atan2(y, x)` on reals (finite inputs, signed
zeros collapsed). -/
noncomputable def jsAtan2 (y x : ℝ) : ℝ :=
  if 0 < x then Real.arctan (y / x)
  else if x = 0 then
    if 0 < y then Real.pi / 2 else if y < 0 then -(Real.pi / 2) else 0
  else
    if 0 ≤ y then Real.arctan (y / x) + Real.pi
    else Real.arctan (y / x) - Real.pi

/-- Function `calculateDistance(lat1, lon1, lat2, lon2)` (src/style.js
lines 437-447): the haversine great-circle distance in km with Earth
radius `R = 6371`. -/
noncomputable def calculateDistance (lat1 lon1 lat2 lon2 : ℝ) : ℝ :=
  let R : ℝ := 6371
  let dLat := (lat2 - lat1) * Real.pi / 180
  let dLon := (lon2 - lon1) * Real.pi / 180
  let a :=
    Real.sin (dLat / 2) * Real.sin (dLat / 2) +
      Real.cos (lat1 * Real.pi / 180) * Real.cos (lat2 * Real.pi / 180) *
        (Real.sin (dLon / 2) * Real.sin (dLon / 2))
  let c := 2 * jsAtan2 (Real.sqrt a) (Real.sqrt (1 - a))
  R * c

/-! ## Route resolution strategy -/

/-- Where a `RouteResult` came from: the routing provider or the
straight-line fallback. -/
inductive RouteSource
  | primary
  | fallback
  deriving DecidableEq, Repr

/-- A well-formed routing-provider payload as `calculateRoute` reads it:
`data.features[0].properties.segments[0]` gives a `distance` in meters and
a `duration` in seconds, and the GeoJSON geometry is drawn as the route
layer (identified here by an opaque id). -/
structure RoutePayload where
  distanceMeters : ℝ
  durationSec : ℝ
  geomId : ℕ

/-- What the routing-provider call can come back as: a network failure
(rejected fetch), a non-success HTTP response, or a success response
whose body either parses into the expected shape (`some payload`) or is
malformed (`none`, making the extraction at src/style.js line 383 throw
into the same `catch`). -/
inductive ProviderResponse
  | netError
  | httpError
  | ok (payload : Option RoutePayload)

/-- Responses that take `calculateRoute` into its fallback branch. -/
def isProviderFailure : ProviderResponse → Bool
  | .netError => true
  | .httpError => true
  | .ok none => true
  | .ok (some _) => false

/-- A resolved route (spec §3 RouteResult): distance in km, whole-minute
duration, integer cost estimate, drawn geometry, and the source tag. -/
structure RouteResult where
  distanceKm : ℝ
  durationMin : ℤ
  costEstimate : ℤ
  geometry : RouteGeom
  source : RouteSource

/-- Function `calculateRoute()` (src/style.js lines 321-434) as a function of the
page state and the outcome of the provider call. Returns the updated page
state and the resolved route, or `none` when a precondition guard fires
(missing location or vehicle) and the function returns early with only a
notification.

Primary branch (response ok and well-formed): `distanceKm = distance/1000`,
`durationMin = round(duration/60)`,
`cost = round(BASE_FEE + round(distanceKm) * rate)`, provider geometry
replaces the route layer.

Fallback branch (anything else): `straightKm` is the haversine distance
between the stored points, `durationEst = round(straightKm * 3)`,
`cost = round(BASE_FEE + straightKm * rate)` on the un-rounded distance,
and the straight dashed line replaces the route layer. -/
noncomputable def calculateRoute (s : PageState) (resp : ProviderResponse) :
    PageState × Option RouteResult :=
  match s.pickup, s.delivery with
  | some p, some d =>
    match s.vehicleField with
    | some vehicle =>
      match resp with
      | .ok (some payload) =>
        let distanceKm : ℝ := payload.distanceMeters / 1000
        let durationMin : ℤ := jsRoundR (payload.durationSec / 60)
        let rate := rateOf vehicle
        let estimatedCost : ℤ :=
          jsRoundR ((BASE_FEE : ℝ) + (jsRoundR distanceKm : ℝ) * (rate : ℝ))
        let r : RouteResult :=
          ⟨distanceKm, durationMin, estimatedCost, .providerPath payload.geomId, .primary⟩
        (addNote
          { s with
            routeLayer := some (.providerPath payload.geomId)
            routeInfo := some (distanceKm, durationMin, estimatedCost) }
          "Route calculated successfully!", some r)
      | _ =>
        let straightKm : ℝ :=
          calculateDistance (p.1 : ℝ) (p.2 : ℝ) (d.1 : ℝ) (d.2 : ℝ)
        let durationEst : ℤ := jsRoundR (straightKm * 3)
        let rate := rateOf vehicle
        let estimatedCost : ℤ :=
          jsRoundR ((BASE_FEE : ℝ) + straightKm * (rate : ℝ))
        let r : RouteResult :=
          ⟨straightKm, durationEst, estimatedCost, .straightLine p d, .fallback⟩
        (addNote
          { s with
            routeLayer := some (.straightLine p d)
            routeInfo := some (straightKm, durationEst, estimatedCost) }
          "Estimated route shown (straight-line fallback)", some r)
    | none =>
      (addNote s "Please select a vehicle type first", none)
  | _, _ =>
    (addNote s "Please set both pickup and delivery locations inside Uganda first", none)

/-! ## Pricing model

The two inline cost computations of `calculateRoute`, as functions of the
resolved distance (spec §4.4 `estimateCost`). -/

/-- Primary-path cost (src/style.js lines 388-389):
`Math.round(BASE_FEE + Math.round(distanceKm) * rate)`. -/
def estimateCostPrimary (distanceKm : ℚ) (vehicle : VehicleClass) : ℤ :=
  jsRound (BASE_FEE + (jsRound distanceKm : ℚ) * rateOf vehicle)

/-- Fallback-path cost (src/style.js lines 408-409):
`Math.round(BASE_FEE + straightKm * rate)` on the un-rounded distance. -/
def estimateCostFallback (distanceKm : ℚ) (vehicle : VehicleClass) : ℤ :=
  jsRound (BASE_FEE + distanceKm * rateOf vehicle)

/-! ## Phone validation and form submission -/

/-- The ECMAScript `\s` character class: the whitespace characters the
global whitespace-or-hyphen replace of `ugPhoneValid` removes. -/
def isJsSpace (c : Char) : Bool :=
  c = ' ' || c = '\t' || c = '\n' || c.val = 11 || c.val = 12 || c = '\r' ||
    c.val = 0xa0 || c.val = 0x1680 ||
    (0x2000 ≤ c.val && c.val ≤ 0x200a) ||
    c.val = 0x2028 || c.val = 0x2029 || c.val = 0x202f || c.val = 0x205f ||
    c.val = 0x3000 || c.val = 0xfeff

/-- The cleaning step of `ugPhoneValid`: the global replace dropping
every `\s` whitespace character and every hyphen from the value. -/
def cleanPhone (s : String) : List Char :=
  s.toList.filter (fun c => !(isJsSpace c || c = '-'))

/-- The tail of the phone pattern after the country-code alternative:
`7\d{8}` anchored to the end. -/
def phoneTail : List Char → Bool
  | '7' :: rest => rest.length == 8 && rest.all Char.isDigit
  | _ => false

/-- Full-string match of `/^(?:\+256|0|256)7\d{8}$/`. -/
def ugPhoneMatch : List Char → Bool
  | '+' :: '2' :: '5' :: '6' :: rest => phoneTail rest
  | '0' :: rest => phoneTail rest
  | '2' :: '5' :: '6' :: rest => phoneTail rest
  | _ => false

/-- Function `ugPhoneValid(value)` (src/style.js lines 564-569): reject a falsy
(empty) value, clean whitespace and hyphens, match the Uganda pattern. -/
def ugPhoneValid (s : String) : Bool :=
  if s = "" then false
  else ugPhoneMatch (cleanPhone s)

/-- The form field values the submit handler reads (whitespace-trimmed
emptiness is what the required-fields loop checks). -/
structure FormValues where
  senderName : String
  senderPhone : String
  senderEmail : String
  recipientName : String
  recipientPhone : String
  packageDescription : String
  vehicleType : String
  pickupLandmark : String
  deliveryLandmark : String
  termsChecked : Bool

/-- Outcome of the submit handler before any network activity is decided:
either the submission is rejected client-side with a notification, or the
handler proceeds to issue the network request to the form target. -/
inductive SubmitOutcome
  | rejected (msg : String)
  | networkRequest
  deriving DecidableEq, Repr

/-- The required-field ids in the order the handler's loop checks them
(src/style.js line 576). -/
def requiredValues (f : FormValues) : List String :=
  [f.senderName, f.senderPhone, f.senderEmail, f.recipientName,
    f.recipientPhone, f.packageDescription, f.vehicleType,
    f.pickupLandmark, f.deliveryLandmark]

/-- The `deliveryForm` submit handler (src/style.js lines 572-684) up to
the point where the network request is issued: the required-fields loop,
the two Uganda phone checks, and the terms-agreement check, in source
order; any failing check notifies and returns before any fetch. -/
def submitHandler (f : FormValues) : SubmitOutcome :=
  if (requiredValues f).any (fun v => v.trim.isEmpty) then
    .rejected "Please complete all required fields including landmarks"
  else if !ugPhoneValid f.senderPhone then
    .rejected "Sender phone must be a valid Ugandan number"
  else if !ugPhoneValid f.recipientPhone then
    .rejected "Recipient phone must be a valid Ugandan number"
  else if !f.termsChecked then
    .rejected "Please agree to the terms of service and privacy policy"
  else
    .networkRequest

/-! ## Spec-side comparands and concrete fixtures -/

/-- The per-km rate as the spec's Pricing Model states it (spec §4.4):
1500 for Motorcycle, 4000 for Car. Compared against the code's
`rateOf`/`RATE_MOTORCYCLE`/`RATE_CAR` wiring. -/
def specRate : VehicleClass → ℚ
  | .motorcycle => 1500
  | .car => 4000

/-- The phone acceptance pattern as the claim states it: after removing
all spaces (the `\s` whitespace class of the source's cleaning replace)
and hyphens, the value is one of the prefixes `+256`, `0`, `256` followed
by the digit `7` and exactly 8 further digits. -/
def phoneClaimPattern (s : String) : Prop :=
  ∃ start ds, cleanPhone s = start ++ '7' :: ds ∧
    (start = ['+', '2', '5', '6'] ∨ start = ['0'] ∨ start = ['2', '5', '6']) ∧
    ds.length = 8 ∧ ∀ c ∈ ds, c.isDigit = true

/-- Projection of the Location State Store entry of a role. -/
def roleEntry (s : PageState) : Role → Option (ℚ × ℚ)
  | .pickup => s.pickup
  | .delivery => s.delivery

/-- A fresh page: nothing stored, markers at the Kampala default, no
route, route section hidden. -/
def blankState : PageState :=
  { pickup := none, delivery := none, pickupMarker := kampala,
    deliveryMarker := kampala, vehicleField := none, routeLayer := none,
    routeInfo := none, routeSectionVisible := false, notes := [] }

/-- A page with both locations stored inside Uganda and a vehicle
selected. -/
def readyState : PageState :=
  { blankState with
    pickup := some (3476/10000, 325825/10000),
    delivery := some (35/100, 163/5),
    vehicleField := some .car }

/-- A page on which a (fallback) route has been computed through the
model after storing two points and selecting a vehicle. -/
noncomputable def routedState : PageState :=
  (calculateRoute
    (setVehicle
      (updateLocation
        (updateLocation blankState (3476/10000) (325825/10000) .pickup)
        (35/100) (163/5) .delivery)
      .car)
    .netError).1

/-- A submission whose sender phone fails the Uganda pattern while every
required field is filled and the terms are accepted. -/
def badPhoneForm : FormValues :=
  { senderName := "A", senderPhone := "123", senderEmail := "a@b.c",
    recipientName := "B", recipientPhone := "0712345678",
    packageDescription := "box", vehicleType := "car",
    pickupLandmark := "gate", deliveryLandmark := "shop",
    termsChecked := true }

/-! ## Theorems -/

/-- Appending a note always changes the notes list (by length). -/
theorem addNote_notes_length (s : PageState) (m : String) :
    (addNote s m).notes.length = s.notes.length + 1 := by
  simp [addNote]

/-- Claim C5: `contains` is the pure chained-inequality predicate over the
fixed region south = -1.5, west = 29.5, north = 4.9, east = 35.1; on a
`NaN` coordinate it returns `false` (and, being a total Lean function, it
cannot throw). -/
theorem contains_pure_predicate :
    UGANDA_BOUNDS = { south := -3/2, west := 59/2, north := 49/10, east := 351/10 } ∧
    (∀ lat lng : ℚ,
      contains (some lat) (some lng) UGANDA_BOUNDS = true ↔
        UGANDA_BOUNDS.south ≤ lat ∧ lat ≤ UGANDA_BOUNDS.north ∧
          UGANDA_BOUNDS.west ≤ lng ∧ lng ≤ UGANDA_BOUNDS.east) ∧
    (∀ x : JSNum, contains none x UGANDA_BOUNDS = false) ∧
    (∀ x : JSNum, contains x none UGANDA_BOUNDS = false) := by
  refine ⟨rfl, fun lat lng => ?_, fun x => ?_, fun x => ?_⟩
  · simp [contains, numLe, and_assoc]
  · simp [contains, numLe]
  · cases x <;> simp [contains, numLe]

/-- Claim C6: the geodesic distance of `calculateDistance` (the haversine
formula with Earth radius 6371 km) is zero on identical points and
exactly symmetric in its two points (exact equality in the real-number
model, hence within any floating-point tolerance). -/
theorem calculateDistance_zero_and_symm :
    (∀ lat lon : ℝ, calculateDistance lat lon lat lon = 0) ∧
    (∀ lat1 lon1 lat2 lon2 : ℝ,
      calculateDistance lat1 lon1 lat2 lon2 = calculateDistance lat2 lon2 lat1 lon1) := by
  constructor
  · intro lat lon
    simp only [calculateDistance, sub_self, zero_mul, zero_div, Real.sin_zero,
      mul_zero, zero_add, add_zero]
    norm_num [jsAtan2, Real.sqrt_zero, Real.sqrt_one, Real.arctan_zero]
  · intro lat1 lon1 lat2 lon2
    simp only [calculateDistance]
    have h1 : (lat1 - lat2) * Real.pi / 180 / 2 = -((lat2 - lat1) * Real.pi / 180 / 2) := by
      ring
    have h2 : (lon1 - lon2) * Real.pi / 180 / 2 = -((lon2 - lon1) * Real.pi / 180 / 2) := by
      ring
    rw [h1, h2, Real.sin_neg, Real.sin_neg]
    ring_nf

/-- Claim C7: the readiness check of `checkRouteAvailability` holds iff
both roles have a stored point and both stored points pass the boundary
check again at read time. -/
theorem isReady_iff_present_and_valid (s : PageState) :
    checkRouteAvailabilityB s = true ↔
      (∃ p, s.pickup = some p ∧ containsB p.1 p.2 = true) ∧
        (∃ d, s.delivery = some d ∧ containsB d.1 d.2 = true) := by
  cases hp : s.pickup <;> cases hd : s.delivery <;>
    simp [checkRouteAvailabilityB, hp, hd]

/-- Claim C1: for every non-negative distance and vehicle class the
primary-path cost is `round(3000 + round(d) * rate)` and the fallback
cost is `round(3000 + d * rate)` with rate 1500 (Motorcycle) / 4000
(Car); both give 18000 at d = 10 for Motorcycle and 43000 for Car; and
the branches differ exactly in pre-rounding the distance: the primary
cost is the fallback cost of the pre-rounded distance, and at d = 1.4 the
two branches produce the distinct values 4500 and 5100. -/
theorem pricing_matches_spec :
    (∀ d : ℚ, 0 ≤ d → ∀ v : VehicleClass,
      estimateCostPrimary d v = jsRound (3000 + (jsRound d : ℚ) * specRate v) ∧
        estimateCostFallback d v = jsRound (3000 + d * specRate v)) ∧
    estimateCostPrimary 10 VehicleClass.motorcycle = 18000 ∧
    estimateCostFallback 10 VehicleClass.motorcycle = 18000 ∧
    estimateCostPrimary 10 VehicleClass.car = 43000 ∧
    estimateCostFallback 10 VehicleClass.car = 43000 ∧
    (∀ (d : ℚ) (v : VehicleClass),
      estimateCostPrimary d v = estimateCostFallback (jsRound d : ℚ) v) ∧
    estimateCostPrimary (7/5) VehicleClass.motorcycle = 4500 ∧
    estimateCostFallback (7/5) VehicleClass.motorcycle = 5100 := by
  refine ⟨fun d _ v => ⟨?_, ?_⟩, ?_, ?_, ?_, ?_, fun d v => rfl, ?_, ?_⟩ <;>
    first
      | (cases v <;> rfl)
      | norm_num [estimateCostPrimary, estimateCostFallback, jsRound,
          BASE_FEE, rateOf, RATE_MOTORCYCLE, RATE_CAR]

/-- Witness for C1 at d = 10, Car. -/
theorem pricing_matches_spec_witness :
    (0 : ℚ) ≤ 10 ∧
      estimateCostPrimary 10 VehicleClass.car =
        jsRound (3000 + (jsRound (10 : ℚ) : ℚ) * specRate VehicleClass.car) :=
  ⟨by norm_num, (pricing_matches_spec.1 10 (by norm_num) VehicleClass.car).1⟩

/-- On any provider failure, `calculateRoute` produces exactly the
straight-line fallback result. -/
theorem calculateRoute_fallback_eq (s : PageState) (p d : ℚ × ℚ)
    (v : VehicleClass) (resp : ProviderResponse)
    (hp : s.pickup = some p) (hd : s.delivery = some d)
    (hv : s.vehicleField = some v) (hresp : isProviderFailure resp = true) :
    (calculateRoute s resp).2 =
      some { distanceKm := calculateDistance (p.1 : ℝ) (p.2 : ℝ) (d.1 : ℝ) (d.2 : ℝ)
             durationMin := jsRoundR (calculateDistance (p.1 : ℝ) (p.2 : ℝ) (d.1 : ℝ) (d.2 : ℝ) * 3)
             costEstimate := jsRoundR ((BASE_FEE : ℝ) +
               calculateDistance (p.1 : ℝ) (p.2 : ℝ) (d.1 : ℝ) (d.2 : ℝ) * (rateOf v : ℝ))
             geometry := .straightLine p d
             source := .fallback } := by
  cases resp with
  | netError => simp [calculateRoute, hp, hd, hv]
  | httpError => simp [calculateRoute, hp, hd, hv]
  | ok payload =>
    cases payload with
    | none => simp [calculateRoute, hp, hd, hv]
    | some pl => simp [isProviderFailure] at hresp

/-- On a well-formed provider success, `calculateRoute` produces exactly
the primary result. -/
theorem calculateRoute_primary_eq (s : PageState) (p d : ℚ × ℚ)
    (v : VehicleClass) (pl : RoutePayload)
    (hp : s.pickup = some p) (hd : s.delivery = some d)
    (hv : s.vehicleField = some v) :
    (calculateRoute s (.ok (some pl))).2 =
      some { distanceKm := pl.distanceMeters / 1000
             durationMin := jsRoundR (pl.durationSec / 60)
             costEstimate := jsRoundR ((BASE_FEE : ℝ) +
               (jsRoundR (pl.distanceMeters / 1000) : ℝ) * (rateOf v : ℝ))
             geometry := .providerPath pl.geomId
             source := .primary } := by
  simp [calculateRoute, hp, hd, hv]

/-- Claim C2: with both locations stored and a vehicle selected, any
provider failure (network error, non-success response, malformed payload)
yields the fallback `RouteResult`: haversine distance between the two
stored points, duration `round(distanceKm * 3)`, cost
`round(3000 + distanceKm * rate)` on the un-rounded distance, straight
two-point geometry, `source = Fallback`. -/
theorem provider_failure_yields_fallback (s : PageState) (p d : ℚ × ℚ)
    (v : VehicleClass) (resp : ProviderResponse)
    (hp : s.pickup = some p) (hd : s.delivery = some d)
    (hv : s.vehicleField = some v) (hresp : isProviderFailure resp = true) :
    (calculateRoute s resp).2 =
      some { distanceKm := calculateDistance (p.1 : ℝ) (p.2 : ℝ) (d.1 : ℝ) (d.2 : ℝ)
             durationMin := jsRoundR (calculateDistance (p.1 : ℝ) (p.2 : ℝ) (d.1 : ℝ) (d.2 : ℝ) * 3)
             costEstimate := jsRoundR ((BASE_FEE : ℝ) +
               calculateDistance (p.1 : ℝ) (p.2 : ℝ) (d.1 : ℝ) (d.2 : ℝ) * (rateOf v : ℝ))
             geometry := .straightLine p d
             source := .fallback } :=
  calculateRoute_fallback_eq s p d v resp hp hd hv hresp

/-- Witness for C2: the ready fixture under a network error. -/
theorem provider_failure_yields_fallback_witness :
    isProviderFailure ProviderResponse.netError = true ∧
      (calculateRoute readyState ProviderResponse.netError).2 =
        some { distanceKm :=
                 calculateDistance ((3476/10000 : ℚ) : ℝ) ((325825/10000 : ℚ) : ℝ)
                   ((35/100 : ℚ) : ℝ) ((163/5 : ℚ) : ℝ)
               durationMin :=
                 jsRoundR (calculateDistance ((3476/10000 : ℚ) : ℝ) ((325825/10000 : ℚ) : ℝ)
                   ((35/100 : ℚ) : ℝ) ((163/5 : ℚ) : ℝ) * 3)
               costEstimate :=
                 jsRoundR ((BASE_FEE : ℝ) +
                   calculateDistance ((3476/10000 : ℚ) : ℝ) ((325825/10000 : ℚ) : ℝ)
                     ((35/100 : ℚ) : ℝ) ((163/5 : ℚ) : ℝ) * (rateOf VehicleClass.car : ℝ))
               geometry := .straightLine (3476/10000, 325825/10000) (35/100, 163/5)
               source := .fallback } :=
  ⟨rfl,
    provider_failure_yields_fallback readyState (3476/10000, 325825/10000)
      (35/100, 163/5) VehicleClass.car ProviderResponse.netError rfl rfl rfl rfl⟩

/-- Claim C3: route resolution is total: with both locations stored and a
vehicle selected, every provider outcome yields a `RouteResult` tagged
Primary or Fallback. -/
theorem route_resolution_total (s : PageState) (p d : ℚ × ℚ)
    (v : VehicleClass) (resp : ProviderResponse)
    (hp : s.pickup = some p) (hd : s.delivery = some d)
    (hv : s.vehicleField = some v) :
    ∃ r, (calculateRoute s resp).2 = some r ∧
      (r.source = RouteSource.primary ∨ r.source = RouteSource.fallback) := by
  cases resp with
  | netError =>
    exact ⟨_, calculateRoute_fallback_eq s p d v _ hp hd hv rfl, Or.inr rfl⟩
  | httpError =>
    exact ⟨_, calculateRoute_fallback_eq s p d v _ hp hd hv rfl, Or.inr rfl⟩
  | ok payload =>
    cases payload with
    | none =>
      exact ⟨_, calculateRoute_fallback_eq s p d v _ hp hd hv rfl, Or.inr rfl⟩
    | some pl =>
      exact ⟨_, calculateRoute_primary_eq s p d v pl hp hd hv, Or.inl rfl⟩

/-- Witness for C3: the ready fixture under a malformed success
response. -/
theorem route_resolution_total_witness :
    ∃ r, (calculateRoute readyState (ProviderResponse.ok none)).2 = some r ∧
      (r.source = RouteSource.primary ∨ r.source = RouteSource.fallback) :=
  route_resolution_total readyState (3476/10000, 325825/10000) (35/100, 163/5)
    VehicleClass.car (ProviderResponse.ok none) rfl rfl rfl

/-- Counterexample to claim C4: on a page where a (fallback) route has
been computed from the stored pickup point, `clearLocation('pickup')`
returns the pickup entry to absent, yet the previously computed
`RouteResult` is not invalidated: the route overlay on the maps and the
displayed route info values survive unchanged, so the stale route is
still shown. -/
theorem clearLocation_keeps_stale_route :
    (clearLocation routedState Role.pickup).pickup = none ∧
    routedState.routeLayer.isSome = true ∧
    (clearLocation routedState Role.pickup).routeLayer.isSome = true ∧
    (clearLocation routedState Role.pickup).routeLayer = routedState.routeLayer ∧
    routedState.routeInfo.isSome = true ∧
    (clearLocation routedState Role.pickup).routeInfo.isSome = true ∧
    (clearLocation routedState Role.pickup).routeInfo = routedState.routeInfo :=
  ⟨rfl, rfl, rfl, rfl, rfl, rfl, rfl⟩

/-- Claim C4 (amended): `clearLocation(role)` returns the role's entry to
absent and makes the readiness check false regardless of the other
role's state, and it hides the route section; but it leaves any
previously computed route state (the `routeLayer` overlay and the route
info values) unchanged rather than invalidating it. -/
theorem clearLocation_amended (s : PageState) (role : Role) :
    roleEntry (clearLocation s role) role = none ∧
    checkRouteAvailabilityB (clearLocation s role) = false ∧
    (clearLocation s role).routeSectionVisible = false ∧
    (clearLocation s role).routeLayer = s.routeLayer ∧
    (clearLocation s role).routeInfo = s.routeInfo := by
  cases role <;>
    simp [clearLocation, checkRouteAvailability, checkRouteAvailabilityB,
      addNote, roleEntry]

/-- Claim C8: a candidate point that fails the boundary check is rejected
by every selection path (map click, marker drag, geocoder search, device
geolocation) with a visible report (the notes list grows) and without
mutating any entry of the Location State Store. -/
theorem rejected_selection_leaves_store (s : PageState) (lat lng : ℚ)
    (role : Role) (h : containsB lat lng = false) :
    locStore (onMapClick s lat lng role) = locStore s ∧
    (onMapClick s lat lng role).notes.length = s.notes.length + 1 ∧
    locStore (onMarkerDragEnd s lat lng role) = locStore s ∧
    (onMarkerDragEnd s lat lng role).notes.length = s.notes.length + 1 ∧
    locStore (onGeocodeResult s lat lng role) = locStore s ∧
    (onGeocodeResult s lat lng role).notes.length = s.notes.length + 1 ∧
    locStore (onGeolocationSuccess s lat lng role) = locStore s ∧
    (onGeolocationSuccess s lat lng role).notes.length = s.notes.length + 1 := by
  cases role <;>
    simp [onMapClick, onMarkerDragEnd, onGeocodeResult, onGeolocationSuccess,
      h, addNote, locStore]

/-- Witness for C8: a point north of the region on a fresh page. -/
theorem rejected_selection_leaves_store_witness :
    containsB 10 32 = false ∧
      locStore (onMapClick blankState 10 32 Role.pickup) = locStore blankState :=
  ⟨by norm_num [containsB, contains, numLe, UGANDA_BOUNDS],
    (rejected_selection_leaves_store blankState 10 32 Role.pickup
      (by norm_num [containsB, contains, numLe, UGANDA_BOUNDS])).1⟩

/-- Claim C9: every accepted point is stored rounded to 6 decimal places
(`toFixed(6)`), and the route pipeline consumes the stored rounded
coordinates, not the originally selected ones: the fallback route
computed after two updates measures the distance between the `toFixed6`
values, and `toFixed6` genuinely moves some points
(0.12345678 becomes the strictly larger 0.123457). -/
theorem stored_coords_toFixed6 (s : PageState) (la1 lo1 la2 lo2 : ℚ)
    (v : VehicleClass) :
    (updateLocation s la1 lo1 Role.pickup).pickup = some (toFixed6 la1, toFixed6 lo1) ∧
    (updateLocation s la1 lo1 Role.delivery).delivery = some (toFixed6 la1, toFixed6 lo1) ∧
    ((calculateRoute
        (setVehicle
          (updateLocation (updateLocation s la1 lo1 Role.pickup) la2 lo2 Role.delivery) v)
        ProviderResponse.netError).2.map RouteResult.distanceKm =
      some (calculateDistance ((toFixed6 la1 : ℚ) : ℝ) ((toFixed6 lo1 : ℚ) : ℝ)
        ((toFixed6 la2 : ℚ) : ℝ) ((toFixed6 lo2 : ℚ) : ℝ))) ∧
    ((calculateRoute
        (setVehicle
          (updateLocation (updateLocation s la1 lo1 Role.pickup) la2 lo2 Role.delivery) v)
        ProviderResponse.netError).2.map RouteResult.costEstimate =
      some (jsRoundR ((BASE_FEE : ℝ) +
        calculateDistance ((toFixed6 la1 : ℚ) : ℝ) ((toFixed6 lo1 : ℚ) : ℝ)
          ((toFixed6 la2 : ℚ) : ℝ) ((toFixed6 lo2 : ℚ) : ℝ) * (rateOf v : ℝ)))) ∧
    toFixed6 (12345678/100000000) = 123457/1000000 ∧
    (12345678/100000000 : ℚ) < 123457/1000000 := by
  refine ⟨rfl, rfl, rfl, rfl, ?_, by norm_num⟩
  norm_num [toFixed6, jsRound]

/-- Characterisation of the anchored pattern tail `7` then 8 digits. -/
theorem phoneTail_iff (l : List Char) :
    phoneTail l = true ↔
      ∃ ds, l = '7' :: ds ∧ ds.length = 8 ∧ ∀ c ∈ ds, c.isDigit = true := by
  constructor
  · intro h
    unfold phoneTail at h
    split at h
    · next ds => exact ⟨ds, rfl, by simpa [List.all_eq_true] using h⟩
    · exact absurd h (by simp)
  · rintro ⟨ds, rfl, hlen, hdig⟩
    simp only [phoneTail, hlen, List.all_eq_true, Bool.and_eq_true, beq_iff_eq]
    exact ⟨trivial, hdig⟩

/-- Characterisation of the anchored full-string phone pattern match. -/
theorem ugPhoneMatch_iff (l : List Char) :
    ugPhoneMatch l = true ↔
      ∃ start ds, l = start ++ '7' :: ds ∧
        (start = ['+', '2', '5', '6'] ∨ start = ['0'] ∨ start = ['2', '5', '6']) ∧
        ds.length = 8 ∧ ∀ c ∈ ds, c.isDigit = true := by
  constructor
  · intro h
    unfold ugPhoneMatch at h
    split at h
    · next rest =>
      obtain ⟨ds, rfl, hlen, hdig⟩ := (phoneTail_iff rest).1 h
      exact ⟨['+', '2', '5', '6'], ds, rfl, Or.inl rfl, hlen, hdig⟩
    · next rest =>
      obtain ⟨ds, rfl, hlen, hdig⟩ := (phoneTail_iff rest).1 h
      exact ⟨['0'], ds, rfl, Or.inr (Or.inl rfl), hlen, hdig⟩
    · next rest =>
      obtain ⟨ds, rfl, hlen, hdig⟩ := (phoneTail_iff rest).1 h
      exact ⟨['2', '5', '6'], ds, rfl, Or.inr (Or.inr rfl), hlen, hdig⟩
    · exact absurd h (by simp)
  · rintro ⟨start, ds, rfl, hpre, hlen, hdig⟩
    rcases hpre with rfl | rfl | rfl <;>
      · simp only [List.cons_append, List.nil_append, ugPhoneMatch, phoneTail,
          hlen, List.all_eq_true, Bool.and_eq_true, beq_iff_eq]
        exact ⟨trivial, hdig⟩

/-- The empty-value guard of `ugPhoneValid` is subsumed by the match (an
empty value cleans to the empty list, which the pattern rejects). -/
theorem ugPhoneValid_eq (s : String) :
    ugPhoneValid s = ugPhoneMatch (cleanPhone s) := by
  unfold ugPhoneValid
  split
  · next h => subst h; rfl
  · rfl

/-- Claim C10: a phone value is accepted exactly when, after dropping all
whitespace and hyphens, it is `+256`, `0` or `256` followed by `7` and
exactly 8 further digits; a submission can only reach the network request
with both phones accepted, and any submission with a failing sender or
recipient phone is rejected client-side before any network request. -/
theorem phone_validation_gates_submission (f : FormValues) (s : String) :
    (ugPhoneValid s = true ↔ phoneClaimPattern s) ∧
    (submitHandler f = SubmitOutcome.networkRequest →
      ugPhoneValid f.senderPhone = true ∧ ugPhoneValid f.recipientPhone = true) ∧
    ((ugPhoneValid f.senderPhone = false ∨ ugPhoneValid f.recipientPhone = false) →
      ∃ m, submitHandler f = SubmitOutcome.rejected m) := by
  refine ⟨?_, ?_, ?_⟩
  · rw [ugPhoneValid_eq]
    exact ugPhoneMatch_iff _
  · intro h
    unfold submitHandler at h
    split_ifs at h with h1 h2 h3 h4
    all_goals simp_all
  · intro hbad
    unfold submitHandler
    split_ifs with h1 h2 h3 h4
    · exact ⟨_, rfl⟩
    · exact ⟨_, rfl⟩
    · exact ⟨_, rfl⟩
    · exact ⟨_, rfl⟩
    · rcases hbad with hb | hb <;> simp_all

/-- Witness for C10: the invalid sender phone `"123"` on an otherwise
complete form. -/
theorem phone_validation_gates_submission_witness :
    ugPhoneValid "123" = false ∧
      ∃ m, submitHandler badPhoneForm = SubmitOutcome.rejected m :=
  ⟨by decide,
    (phone_validation_gates_submission badPhoneForm "123").2.2 (Or.inl (by decide))⟩

end VDelivery
